import Mathlib

/-!
Verification of the capture/crop and resilient-delivery core of the
MJ-translate floating tag ball browser extension.

The definitions below are a shallow embedding of the JavaScript sources:
`floating_tag_ball/background.js` (delivery, outbox, retry alarm, schema
fetch), `floating_tag_ball/content.js` (region selection, rpc timeout,
crop editor) and `floating_tag_ball/direct_page_capture.js` (capture
strategy chain).  Network and timer nondeterminism is passed in explicitly
as environment parameters; machine state (the `chrome.storage.local`
outbox, the `outboxRetry` alarm, the pending rpc timer) is explicit state.
-/

namespace MJTag

/-- Result of a JavaScript `fetch` call as observed by the background
script: the promise either resolves with a response carrying its `ok`
flag and HTTP status, or rejects (network unreachable, CORS, TLS). -/
inductive FetchResult where
  | resp (ok : Bool) (status : Nat)
  | thrown (e : String)
deriving DecidableEq, Repr

/-- The two collector endpoints the SAVE_TAG handler and the outbox
flusher post to, in priority order. -/
inductive Endpoint where
  | apiPush
  | tagAdd
deriving DecidableEq, Repr

/-- An outbox item: the tag payload plus the `_ts` enqueue timestamp the
SAVE_TAG handler merges in before sending or enqueueing. -/
structure OutboxItem where
  payload : String
  ts : Nat
deriving DecidableEq, Repr

/-- Persistent extension state touched by delivery: the `outbox` list in
`chrome.storage.local` and the `outboxRetry` alarm (`none` means not
armed, `some m` means armed with period `m` minutes). -/
structure Storage where
  outbox : List OutboxItem
  alarm : Option Nat
deriving DecidableEq, Repr

/-- Alarm period computed by `scheduleRetry` in background.js:
`Math.max(1, settings.autoRetryMinutes || 1)`. -/
def retryPeriod (autoRetryMinutes : Nat) : Nat :=
  max 1 (if autoRetryMinutes = 0 then 1 else autoRetryMinutes)

/-- background.js `scheduleRetry` (lines 44-49): create or refresh the
periodic `outboxRetry` alarm. -/
def scheduleRetry (autoRetryMinutes : Nat) (s : Storage) : Storage :=
  { s with alarm := some (retryPeriod autoRetryMinutes) }

/-- background.js `pushOutbox` (lines 38-43): append the item to the
stored outbox, then arm the retry alarm. -/
def pushOutbox (autoRetryMinutes : Nat) (item : OutboxItem) (s : Storage) : Storage :=
  scheduleRetry autoRetryMinutes { s with outbox := s.outbox ++ [item] }

/-- Whether one delivery attempt of a record succeeds: post to
`/api/push`; fall through to `/tag/add` only when the primary resolved
with a non-ok status; an ok response from either endpoint is success;
a thrown primary, a thrown secondary, or a non-ok secondary response
lands in the `catch` branch (failure). -/
def attemptSucceeds (primary secondary : FetchResult) : Bool :=
  match primary with
  | .resp true _ => true
  | .resp false _ =>
    match secondary with
    | .resp true _ => true
    | _ => false
  | .thrown _ => false

/-- Endpoints actually contacted for one record: `/tag/add` is reached
only after a resolved non-ok primary response; a thrown primary jumps
straight to the `catch`, so the secondary is never contacted then. -/
def attemptedEndpoints (primary : FetchResult) : List Endpoint :=
  match primary with
  | .resp true _ => [.apiPush]
  | .resp false _ => [.apiPush, .tagAdd]
  | .thrown _ => [.apiPush]

/-- Response the SAVE_TAG handler sends back to the content script. -/
structure SaveTagResponse where
  ok : Bool
  queued : Bool
  error : Option String
deriving DecidableEq, Repr

/-- Suffix the SAVE_TAG catch branch appends to `String(e)` when the
record is moved to the offline queue. -/
def queuedErrorSuffix : String := "。已加入离线队列，待网络恢复或主程序可用后自动重试。"

/-- background.js SAVE_TAG handler (lines 185-222): post the payload
(with `_ts := now`) to `/api/push`; on a resolved non-ok response try
`/tag/add`; on any thrown error enqueue the payload via `pushOutbox` and
answer `{ok := false, queued := true, error := String(e) + suffix}`.
Returns the endpoints attempted, the response, and the new storage. -/
def saveTag (autoRetryMinutes : Nat) (primary secondary : FetchResult)
    (payload : String) (now : Nat) (s : Storage) :
    List Endpoint × SaveTagResponse × Storage :=
  let item : OutboxItem := { payload := payload, ts := now }
  match primary with
  | .resp true _ => ([.apiPush], ⟨true, false, none⟩, s)
  | .resp false _ =>
    match secondary with
    | .resp true _ => ([.apiPush, .tagAdd], ⟨true, false, none⟩, s)
    | .resp false status =>
      ([.apiPush, .tagAdd],
        ⟨false, true, some ("Error: HTTP " ++ toString status ++ queuedErrorSuffix)⟩,
        pushOutbox autoRetryMinutes item s)
    | .thrown e =>
      ([.apiPush, .tagAdd], ⟨false, true, some (e ++ queuedErrorSuffix)⟩,
        pushOutbox autoRetryMinutes item s)
  | .thrown e =>
    ([.apiPush], ⟨false, true, some (e ++ queuedErrorSuffix)⟩,
      pushOutbox autoRetryMinutes item s)

/-- Body of the `processOutbox` loop over the remaining items, where `i`
is the position of the head item in the original outbox and `env i`
gives the primary/secondary fetch results for the item at position `i`.
Returns the retained items (in order) and the attempt trace: for each
item, its original index and the endpoints contacted for it. -/
def outboxLoop (env : Nat → FetchResult × FetchResult) :
    Nat → List OutboxItem → List OutboxItem × List (Nat × List Endpoint)
  | _, [] => ([], [])
  | i, item :: rest =>
    let tail := outboxLoop env (i + 1) rest
    let pr := (env i).1
    if attemptSucceeds pr (env i).2 then
      (tail.1, (i, attemptedEndpoints pr) :: tail.2)
    else
      (item :: tail.1, (i, attemptedEndpoints pr) :: tail.2)

/-- background.js `processOutbox` (lines 50-79): return immediately on an
empty outbox; otherwise attempt each item in insertion order, keep the
failed items in `remain`, store `remain` back, and clear the
`outboxRetry` alarm exactly when `remain` is empty.  Also returns the
attempt trace of the run. -/
def processOutbox (env : Nat → FetchResult × FetchResult) (s : Storage) :
    Storage × List (Nat × List Endpoint) :=
  if s.outbox.isEmpty then (s, [])
  else
    let run := outboxLoop env 0 s.outbox
    ({ outbox := run.1, alarm := if run.1.isEmpty then none else s.alarm }, run.2)

/-- Delivery-side events that mutate the stored outbox/alarm state:
a SAVE_TAG failure enqueueing a record, or an `outboxRetry` alarm firing
`processOutbox`. -/
inductive OutboxOp where
  | push (autoRetryMinutes : Nat) (item : OutboxItem)
  | flush (env : Nat → FetchResult × FetchResult)

/-- Apply one delivery-side event to the stored state. -/
def applyOp : Storage → OutboxOp → Storage
  | s, .push m item => pushOutbox m item s
  | s, .flush env => (processOutbox env s).1

/-- Fresh extension state: empty outbox, alarm not armed. -/
def initialStorage : Storage := ⟨[], none⟩

/-- Stored state after a sequence of delivery-side events from a fresh
install. -/
def runOps (ops : List OutboxOp) : Storage := ops.foldl applyOp initialStorage

/-- JSON body of a schema endpoint response as inspected by
`tryFetchSchema`: the four recognized keys. `some` models a present
(hence truthy — arrays included) field, `none` an absent one. -/
structure SchemaData where
  head : Option (List String)
  tail : Option (List String)
  headTabs : Option (List String)
  tailTabs : Option (List String)
deriving DecidableEq, Repr

/-- The cached and returned schema shape `{head, tail}`. -/
structure Schema where
  head : List String
  tail : List String
deriving DecidableEq, Repr

/-- Result of fetching one schema endpoint: resolve ok with a JSON body,
resolve with a non-ok status, or reject.  An ok body that is not JSON
would reject at `resp.json()`, which is the `thrown` case as well. -/
inductive SchemaFetch where
  | okJson (data : SchemaData)
  | httpError (status : Nat)
  | thrown (e : String)
deriving DecidableEq, Repr

/-- Structural validity test of a schema body in `tryFetchSchema`:
`data && (data.head || data.tail || data.headTabs || data.tailTabs)`. -/
def schemaDataValid (d : SchemaData) : Bool :=
  d.head.isSome || d.tail.isSome || d.headTabs.isSome || d.tailTabs.isSome

/-- Schema built from an accepted body:
`{head: data.head || data.headTabs || [], tail: data.tail || data.tailTabs || []}`. -/
def schemaOf (d : SchemaData) : Schema :=
  { head := d.head.getD (d.headTabs.getD [])
    tail := d.tail.getD (d.tailTabs.getD []) }

/-- Candidate endpoint list of `tryFetchSchema` (lines 104-107): the
user-configured endpoint first when it is non-empty, then the four
fixed defaults, in source order.  The source applies `.trim()` to the
configured value and pushes the trimmed string when non-empty; the
argument here is that already-trimmed configured value. -/
def schemaEndpoints (schemaEndpoint : String) : List String :=
  (if schemaEndpoint ≠ "" then [schemaEndpoint] else []) ++
    ["/tag/schema", "/schema", "/tags/schema", "/sync/schema"]

/-- Result shape of `tryFetchSchema`. -/
inductive SchemaResult where
  | ok (schema : Schema) (endpoint : String)
  | error (msg : String)
deriving DecidableEq, Repr

/-- Error message returned when every endpoint failed and no cache
exists. -/
def noSchemaMsg : String := "未找到可用的 Schema 接口，且无缓存可用"

/-- Loop of `tryFetchSchema` (lines 109-125) over the remaining
endpoints, threading `lastErr` exactly as the source does: a non-ok
status or a thrown error updates it, while an ok response whose body is
structurally invalid leaves it unchanged.  On exhaustion fall back to
the cached schema, and only without a cache return the explicit error.
Returns the result and the cache after the call. -/
def schemaLoop (env : String → SchemaFetch) (cached : Option Schema) :
    List String → Option String → SchemaResult × Option Schema
  | [], lastErr =>
    match cached with
    | some c => (.ok c "(cached)", cached)
    | none => (.error (lastErr.getD noSchemaMsg), cached)
  | ep :: rest, lastErr =>
    match env ep with
    | .okJson d =>
      if schemaDataValid d then (.ok (schemaOf d) ep, some (schemaOf d))
      else schemaLoop env cached rest lastErr
    | .httpError status => schemaLoop env cached rest (some ("HTTP " ++ toString status))
    | .thrown e => schemaLoop env cached rest (some e)

/-- background.js `tryFetchSchema` (lines 104-126): run the endpoint
loop on the candidate list with no `lastErr` yet. -/
def tryFetchSchema (env : String → SchemaFetch) (schemaEndpoint : String)
    (cached : Option Schema) : SchemaResult × Option Schema :=
  schemaLoop env cached (schemaEndpoints schemaEndpoint) none

/-- Whether one endpoint fetch yields a structurally valid schema body. -/
def fetchValid : SchemaFetch → Bool
  | .okJson d => schemaDataValid d
  | _ => false

/-- Timeout constant armed by `rpc` in content.js:
`setTimeout(..., 5000)`. -/
def rpcTimeoutMs : Nat := 5000

/-- Outcome carried by a settled `rpc` promise. -/
inductive RpcOutcome where
  | resolved (response : String)
  | rejectedTimeout
  | rejectedLastError (msg : String)
deriving DecidableEq, Repr

/-- Events that can reach one `rpc` call after it arms its timer: the
5000 ms timer fires, or the `sendMessage` callback runs — with
`chrome.runtime.lastError` set, or with a response. -/
inductive RpcEvent where
  | timerFires
  | callback (lastError : Option String) (response : String)
deriving DecidableEq, Repr

/-- State of one `rpc` call: whether its timeout timer is still pending,
and whether (and how) its promise has settled. -/
structure RpcState where
  timerPending : Bool
  settled : Option RpcOutcome
deriving DecidableEq, Repr

/-- State right after `rpc` runs (content.js lines 14-29): timer armed,
promise pending. -/
def rpcInit : RpcState := ⟨true, none⟩

/-- Promise settlement semantics: only the first resolve or reject takes
effect; later ones are ignored. -/
def settleOnce (s : Option RpcOutcome) (o : RpcOutcome) : Option RpcOutcome :=
  match s with
  | some x => some x
  | none => some o

/-- One event processed by the `rpc` handlers: the timer callback
rejects with the timeout error, consuming the one-shot timer; the
message callback first runs `clearTimeout` and then rejects on
`lastError` or resolves with the response. -/
def rpcStep (s : RpcState) (e : RpcEvent) : RpcState :=
  match e with
  | .timerFires =>
    if s.timerPending then ⟨false, settleOnce s.settled .rejectedTimeout⟩ else s
  | .callback lastError response =>
    ⟨false, settleOnce s.settled (match lastError with
      | some m => .rejectedLastError m
      | none => .resolved response)⟩

/-- State of one `rpc` call after a sequence of events. -/
def rpcRun (events : List RpcEvent) : RpcState := events.foldl rpcStep rpcInit

/-- Viewport-relative rectangle `{x, y, w, h}`. -/
structure Rect where
  x : ℚ
  y : ℚ
  w : ℚ
  h : ℚ
deriving DecidableEq, Repr

/-- JavaScript `Math.round`: round half toward positive infinity. -/
def jsRound (q : ℚ) : ℤ := ⌊q + 1 / 2⌋

/-- Source-crop rectangle computed by `captureWithNativeAPI`
(direct_page_capture.js lines 78-85) from the snapshot's natural size
and the viewport size: `scale = natural / inner` per axis and each field
of the region rect is multiplied by its scale and rounded. -/
structure NativeCrop where
  sx : ℤ
  sy : ℤ
  sw : ℤ
  sh : ℤ
deriving DecidableEq, Repr

/-- Crop computation of `captureWithNativeAPI`. -/
def nativeCropOf (rect : Rect) (naturalWidth naturalHeight innerWidth innerHeight : ℚ) :
    NativeCrop :=
  let scaleX := naturalWidth / innerWidth
  let scaleY := naturalHeight / innerHeight
  { sx := jsRound (rect.x * scaleX)
    sy := jsRound (rect.y * scaleY)
    sw := jsRound (rect.w * scaleX)
    sh := jsRound (rect.h * scaleY) }

/-- Dimensions of the output canvas in `captureWithNativeAPI` (lines
88-92): `canvas.width = sw; canvas.height = sh`, and `drawImage` copies
the source rect `(sx, sy, sw, sh)` onto it at `(0, 0, sw, sh)`. -/
def nativeCanvasSize (c : NativeCrop) : ℤ × ℤ := (c.sw, c.sh)

/-- Environment of one native-API capture attempt: the background
CAPTURE response failed (or `sendMessage` threw), the returned snapshot
image failed to decode, or the snapshot decoded at the given natural
size. -/
inductive CaptureEnv where
  | respFailure (error : Option String)
  | imageLoadError
  | snapshot (naturalWidth naturalHeight : ℚ)
deriving DecidableEq, Repr

/-- Raster the pipeline hands on: real cropped snapshot pixels, or a
placeholder synthesized from page metadata (the kind `captureWithDOM`
is written to produce, and content.js's inline fallback draws when
`directPageCapture` is not installed). -/
inductive Raster where
  | cropped (crop : NativeCrop)
  | placeholder (w h : ℚ)
deriving DecidableEq, Repr

/-- Result shape of `directPageCapture.capture`. -/
structure CaptureResult where
  success : Bool
  image : Option Raster
  error : Option String
deriving DecidableEq, Repr

/-- direct_page_capture.js `captureWithNativeAPI` (lines 55-106):
resolve with the cropped snapshot, or throw — the inner catch rethrows
`e.message || '原生截图API不可用'`; `Except.error` models the throw. -/
def captureWithNativeAPI (env : CaptureEnv) (rect : Rect) (innerW innerH : ℚ) :
    Except String Raster :=
  match env with
  | .respFailure err => .error (err.getD "标签页截图失败")
  | .imageLoadError => .error "截图图像加载失败"
  | .snapshot nw nh => .ok (.cropped (nativeCropOf rect nw nh innerW innerH))

/-- direct_page_capture.js `captureWithDOM` (lines 111-151): written to
synthesize a `rect.w × rect.h` placeholder raster from page metadata
(grid, title, dimensions, URL), but the path never gets that far: its
try block calls `drawPageInfo` (line 131), which calls `truncateText`
(lines 215, 225), whose body reads the undeclared free variable `ctx`
(line 252 — not a parameter of `truncateText` and declared in no
enclosing scope of the strict-mode IIFE), so every call throws
`ReferenceError: ctx is not defined`, the catch rejects the promise,
and the placeholder is never produced.  `Except.error` models the
rejection. -/
def captureWithDOM (rect : Rect) : Except String Raster :=
  .error "ctx is not defined"

/-- direct_page_capture.js `capture` (lines 17-38): take the native path
when `isNativeCaptureSupported()` holds (chrome messaging present),
otherwise the DOM synthesis path; any error thrown by the chosen path is
caught and returned as `{success := false, error}` — the catch does not
fall through to `captureWithDOM`. -/
def capture (nativeSupported : Bool) (env : CaptureEnv) (rect : Rect)
    (innerW innerH : ℚ) : CaptureResult :=
  if nativeSupported then
    match captureWithNativeAPI env rect innerW innerH with
    | .ok raster => ⟨true, some raster, none⟩
    | .error e => ⟨false, none, some e⟩
  else
    match captureWithDOM rect with
    | .ok raster => ⟨true, some raster, none⟩
    | .error e => ⟨false, none, some e⟩

/-- What the user sees at the end of `captureScreenshot` in content.js:
the tag modal holding an image, or the failure tip. -/
inductive ScreenOutcome where
  | tagModal (image : Raster)
  | errorTip (msg : String)
deriving DecidableEq, Repr

/-- content.js `captureScreenshot` (lines 194-330) with
`directPageCapture` installed: a successful capture opens the tag modal;
a `success := false` result throws `result.error || '截图失败'`, the
outer catch shows the error tip, and the inline DOM fallback further
down the function is skipped by that throw. -/
def captureScreenshot (nativeSupported : Bool) (env : CaptureEnv) (rect : Rect)
    (innerW innerH : ℚ) : ScreenOutcome :=
  let result := capture nativeSupported env rect innerW innerH
  if result.success then
    -- a success result always carries an image, in the source as here;
    -- the default is dead code
    .tagModal (result.image.getD (.placeholder rect.w rect.h))
  else
    .errorTip (result.error.getD "截图失败")

/-- Pointer position `(clientX, clientY)`. -/
structure Point where
  x : ℚ
  y : ℚ
deriving DecidableEq, Repr

/-- content.js `onMouseMove` during region selection (lines 129-155):
the square side is `max(|dx|, |dy|)`, the end corner is the start corner
moved by the side toward the pointer, and the candidate rect is the
bounding box of the two corners. -/
def selectionRect (startPt cur : Point) : Rect :=
  let width := |cur.x - startPt.x|
  let height := |cur.y - startPt.y|
  let size := max width height
  let endX := startPt.x + (if startPt.x ≤ cur.x then 1 else -1) * size
  let endY := startPt.y + (if startPt.y ≤ cur.y then 1 else -1) * size
  { x := min startPt.x endX
    y := min startPt.y endY
    w := size
    h := size }

/-- Containment of a rect in the viewport `[0, vw] × [0, vh]`. -/
def Rect.inBounds (r : Rect) (vw vh : ℚ) : Prop :=
  0 ≤ r.x ∧ 0 ≤ r.y ∧ r.x + r.w ≤ vw ∧ r.y + r.h ≤ vh

instance (r : Rect) (vw vh : ℚ) : Decidable (r.inBounds vw vh) := by
  unfold Rect.inBounds; infer_instance

/-- CropEditor interaction state relevant to drag and resize: the crop
rectangle and the container size (fields of `cropData` in content.js). -/
structure CropState where
  cropX : ℚ
  cropY : ℚ
  cropWidth : ℚ
  cropHeight : ℚ
  containerWidth : ℚ
  containerHeight : ℚ
deriving DecidableEq, Repr

/-- The eight directional resize handles of the crop box. -/
inductive Handle where
  | n | s | e | w | ne | nw | se | sw
deriving DecidableEq, Repr

/-- Whether the handle name contains `w` (west edge moves). -/
def Handle.hasW : Handle → Bool
  | .w | .nw | .sw => true
  | _ => false

/-- Whether the handle name contains `e` (east edge moves). -/
def Handle.hasE : Handle → Bool
  | .e | .ne | .se => true
  | _ => false

/-- Whether the handle name contains `n` (north edge moves). -/
def Handle.hasN : Handle → Bool
  | .n | .ne | .nw => true
  | _ => false

/-- Whether the handle name contains `s` (south edge moves). -/
def Handle.hasS : Handle → Bool
  | .s | .se | .sw => true
  | _ => false

/-- Candidate `newX` of `handleResize` (content.js lines 992-995). -/
def resizeNewX (c : CropState) (handle : Handle) (deltaX : ℚ) : ℚ :=
  if handle.hasW then max 0 (c.cropX + deltaX) else c.cropX

/-- Candidate `newWidth` of `handleResize` (lines 992-998). -/
def resizeNewWidth (c : CropState) (handle : Handle) (deltaX : ℚ) : ℚ :=
  if handle.hasW then c.cropWidth - (resizeNewX c handle deltaX - c.cropX)
  else if handle.hasE then min (c.containerWidth - c.cropX) (c.cropWidth + deltaX)
  else c.cropWidth

/-- Candidate `newY` of `handleResize` (lines 999-1002). -/
def resizeNewY (c : CropState) (handle : Handle) (deltaY : ℚ) : ℚ :=
  if handle.hasN then max 0 (c.cropY + deltaY) else c.cropY

/-- Candidate `newHeight` of `handleResize` (lines 999-1005). -/
def resizeNewHeight (c : CropState) (handle : Handle) (deltaY : ℚ) : ℚ :=
  if handle.hasN then c.cropHeight - (resizeNewY c handle deltaY - c.cropY)
  else if handle.hasS then min (c.containerHeight - c.cropY) (c.cropHeight + deltaY)
  else c.cropHeight

/-- content.js `handleResize` (lines 981-1017): compute the candidate
rectangle for the handle direction, then commit all four fields only
when both candidate sides are at least 20 px; otherwise leave the state
untouched. -/
def handleResize (c : CropState) (handle : Handle) (deltaX deltaY : ℚ) : CropState :=
  if 20 ≤ resizeNewWidth c handle deltaX ∧ 20 ≤ resizeNewHeight c handle deltaY then
    { c with
        cropX := resizeNewX c handle deltaX
        cropY := resizeNewY c handle deltaY
        cropWidth := resizeNewWidth c handle deltaX
        cropHeight := resizeNewHeight c handle deltaY }
  else c

/-- content.js drag branch of `handleMouseMove` (lines 966-975):
translate the crop box and clamp its position into the container. -/
def handleDrag (c : CropState) (newX newY : ℚ) : CropState :=
  { c with
      cropX := max 0 (min newX (c.containerWidth - c.cropWidth))
      cropY := max 0 (min newY (c.containerHeight - c.cropHeight)) }

/-- The crop rectangle lies inside the container. -/
def CropState.inBounds (c : CropState) : Prop :=
  0 ≤ c.cropX ∧ 0 ≤ c.cropY ∧
    c.cropX + c.cropWidth ≤ c.containerWidth ∧
    c.cropY + c.cropHeight ≤ c.containerHeight

instance (c : CropState) : Decidable c.inBounds := by
  unfold CropState.inBounds; infer_instance

/-- Both crop sides are at or above the 20 px resize floor. -/
def CropState.atFloor (c : CropState) : Prop :=
  20 ≤ c.cropWidth ∧ 20 ≤ c.cropHeight

instance (c : CropState) : Decidable c.atFloor := by
  unfold CropState.atFloor; infer_instance

/-- One pointer-move step while a crop interaction is active: a resize
step through a handle, or a drag step. -/
inductive CropStep where
  | resize (handle : Handle) (deltaX deltaY : ℚ)
  | drag (newX newY : ℚ)
deriving DecidableEq, Repr

/-- Apply one crop interaction step. -/
def applyCropStep (c : CropState) : CropStep → CropState
  | .resize h dx dy => handleResize c h dx dy
  | .drag nx ny => handleDrag c nx ny

/-- Apply a sequence of crop interaction steps in order. -/
def applyCropSteps (c : CropState) (steps : List CropStep) : CropState :=
  steps.foldl applyCropStep c

/-- Fetch environment of flush scenario C: the item at position 1 fails
with a thrown primary, the others succeed at the primary endpoint. -/
def envScenarioC : Nat → FetchResult × FetchResult := fun i =>
  if i = 1 then (.thrown "TypeError: Failed to fetch", .thrown "TypeError: Failed to fetch")
  else (.resp true 200, .resp true 200)

/-- Outbox of flush scenario C: three entries. -/
def outboxScenarioC : Storage := ⟨[⟨"a", 1⟩, ⟨"b", 2⟩, ⟨"c", 3⟩], some 1⟩

/-- Schema-fetch environment where only the `/schema` default answers
with a valid body. -/
def envSchemaOk : String → SchemaFetch := fun ep =>
  if ep = "/schema" then .okJson ⟨some ["人物"], some ["光影"], none, none⟩
  else .httpError 404

/-- Schema-fetch environment where every endpoint rejects. -/
def envSchemaDown : String → SchemaFetch := fun _ => .thrown "TypeError: Failed to fetch"

/-! Theorems. -/

/-- Lemma: one run of the `processOutbox` loop keeps exactly the items
whose attempt fails, in their original relative order, and attempts
every item in order, recording the endpoints contacted. -/
theorem outboxLoop_spec (env : Nat → FetchResult × FetchResult) (l : List OutboxItem) :
    ∀ i : Nat,
      (outboxLoop env i l).1 =
        ((l.enumFrom i).filter fun p => !attemptSucceeds (env p.1).1 (env p.1).2).map Prod.snd ∧
      (outboxLoop env i l).2 =
        (l.enumFrom i).map fun p => (p.1, attemptedEndpoints (env p.1).1) := by
  induction l with
  | nil => intro i; simp [outboxLoop, List.enumFrom]
  | cons item rest ih =>
    intro i
    obtain ⟨ih1, ih2⟩ := ih (i + 1)
    by_cases hs : attemptSucceeds (env i).1 (env i).2
    · simp [outboxLoop, List.enumFrom, hs, ih1, ih2]
    · simp [outboxLoop, List.enumFrom, hs, ih1, ih2]

/-- C1: when the POST to the primary `/api/push` endpoint throws, the
secondary `/tag/add` endpoint is not attempted (the attempt trace is
just the primary, and the result does not depend on the secondary's
result); the record (payload plus enqueue timestamp) is appended to the
outbox, the retry alarm is armed, and the caller receives the queued
outcome `{ok := false, queued := true}` with the error detail preserved
in the message; afterwards the outbox is exactly the old outbox plus
that one entry. -/
theorem saveTag_primary_thrown_queues (m : Nat) (e : String) (secondary : FetchResult)
    (payload : String) (now : Nat) (s : Storage) :
    saveTag m (.thrown e) secondary payload now s =
      ([.apiPush],
        ⟨false, true, some (e ++ queuedErrorSuffix)⟩,
        { outbox := s.outbox ++ [⟨payload, now⟩], alarm := some (retryPeriod m) }) := rfl

/-- C2: one run of `flush()` on a non-empty outbox attempts every entry
in insertion order (the trace lists the indices `0, 1, …` in order,
with the endpoints contacted for each), and the outbox afterwards is
exactly the failing entries, in their original relative order. -/
theorem processOutbox_flush_spec (env : Nat → FetchResult × FetchResult) (s : Storage)
    (h : s.outbox ≠ []) :
    (processOutbox env s).2 =
      (s.outbox.enumFrom 0).map (fun p => (p.1, attemptedEndpoints (env p.1).1)) ∧
    (processOutbox env s).1.outbox =
      ((s.outbox.enumFrom 0).filter fun p =>
        !attemptSucceeds (env p.1).1 (env p.1).2).map Prod.snd := by
  obtain ⟨h1, h2⟩ := outboxLoop_spec env s.outbox 0
  unfold processOutbox
  rw [if_neg (by simpa using h)]
  exact ⟨h2, h1⟩

/-- C2 witness: outbox of three entries, entries 0 and 2 deliver and
entry 1 fails — afterwards the outbox is exactly entry 1, and all three
were attempted in order. -/
theorem processOutbox_flush_spec_witness :
    outboxScenarioC.outbox ≠ [] ∧
    ((processOutbox envScenarioC outboxScenarioC).2 =
        (outboxScenarioC.outbox.enumFrom 0).map
          (fun p => (p.1, attemptedEndpoints (envScenarioC p.1).1)) ∧
      (processOutbox envScenarioC outboxScenarioC).1.outbox =
        ((outboxScenarioC.outbox.enumFrom 0).filter fun p =>
          !attemptSucceeds (envScenarioC p.1).1 (envScenarioC p.1).2).map Prod.snd) ∧
    (processOutbox envScenarioC outboxScenarioC).1.outbox = [⟨"b", 2⟩] := by
  refine ⟨by decide, processOutbox_flush_spec envScenarioC outboxScenarioC (by decide), by decide⟩

/-- Lemma: one delivery-side event preserves the drained-alarm
invariant: an empty stored outbox implies an unarmed alarm. -/
theorem applyOp_drained_inv (s : Storage) (op : OutboxOp)
    (h : s.outbox = [] → s.alarm = none) :
    (applyOp s op).outbox = [] → (applyOp s op).alarm = none := by
  cases op with
  | push m item => intro hc; simp [applyOp, pushOutbox, scheduleRetry] at hc
  | flush env =>
    intro hc
    by_cases he : s.outbox.isEmpty
    · have hs := h (List.isEmpty_iff.mp he)
      simp [applyOp, processOutbox, he, hs]
    · simp only [applyOp, processOutbox, if_neg he] at hc ⊢
      simp [hc]

/-- Lemma: the drained-alarm invariant propagates through any foldl of
delivery-side events. -/
theorem foldl_drained_inv (ops : List OutboxOp) :
    ∀ s : Storage, (s.outbox = [] → s.alarm = none) →
      ((ops.foldl applyOp s).outbox = [] → (ops.foldl applyOp s).alarm = none) := by
  induction ops with
  | nil => intro s h; simpa using h
  | cons op rest ih =>
    intro s h
    simpa [List.foldl_cons] using ih (applyOp s op) (applyOp_drained_inv s op h)

/-- C9: flushing an empty outbox is a no-op — the stored state is
returned unchanged (in particular the alarm is not re-armed) and no
delivery attempt is made; a flush that drains a non-empty outbox
explicitly clears the retry alarm; and along any sequence of
enqueue/flush events from a fresh install, an empty outbox always comes
with an unarmed alarm, so the scheduler never keeps running once the
queue is drained. -/
theorem processOutbox_empty_noop_drain_cancels :
    (∀ (env : Nat → FetchResult × FetchResult) (s : Storage),
      s.outbox = [] → processOutbox env s = (s, [])) ∧
    (∀ (env : Nat → FetchResult × FetchResult) (s : Storage), s.outbox ≠ [] →
      (processOutbox env s).1.outbox = [] → (processOutbox env s).1.alarm = none) ∧
    (∀ ops : List OutboxOp, (runOps ops).outbox = [] → (runOps ops).alarm = none) := by
  refine ⟨?_, ?_, ?_⟩
  · intro env s h
    simp [processOutbox, h]
  · intro env s h hc
    simp only [processOutbox, List.isEmpty_iff, h, if_false] at hc ⊢
    simp [hc, List.isEmpty_iff]
  · intro ops
    exact foldl_drained_inv ops initialStorage (by simp [initialStorage])

/-- C9 witness: flushing the empty outbox (with the alarm armed) changes
nothing and attempts nothing, and a flush that drains the scenario-C
outbox with every delivery succeeding leaves the alarm cleared. -/
theorem processOutbox_empty_noop_drain_cancels_witness :
    ((⟨[], some 1⟩ : Storage).outbox = [] ∧
      processOutbox (fun _ => (.resp true 200, .resp true 200)) ⟨[], some 1⟩ =
        (⟨[], some 1⟩, [])) ∧
    (outboxScenarioC.outbox ≠ [] ∧
      (processOutbox (fun _ => (.resp true 200, .resp true 200)) outboxScenarioC).1.outbox
        = [] ∧
      (processOutbox (fun _ => (.resp true 200, .resp true 200)) outboxScenarioC).1.alarm
        = none) := by
  refine ⟨⟨rfl, processOutbox_empty_noop_drain_cancels.1 _ _ rfl⟩,
    ⟨by decide, by decide,
      processOutbox_empty_noop_drain_cancels.2.1 _ outboxScenarioC (by decide) (by decide)⟩⟩

/-- Lemma: a settled promise stays settled with the same outcome through
any further events. -/
theorem rpcFoldl_settled_mono (events : List RpcEvent) :
    ∀ (s : RpcState) (o : RpcOutcome), s.settled = some o →
      (events.foldl rpcStep s).settled = some o := by
  induction events with
  | nil => intro s o h; simpa using h
  | cons e rest ih =>
    intro s o h
    have hstep : (rpcStep s e).settled = some o := by
      cases e with
      | timerFires =>
        by_cases hp : s.timerPending
        · simp [rpcStep, hp, settleOnce, h]
        · simp [rpcStep, hp, h]
      | callback le r => simp [rpcStep, settleOnce, h]
    simpa [List.foldl_cons] using ih (rpcStep s e) o hstep

/-- Lemma: once the timer is no longer pending it never becomes pending
again. -/
theorem rpcFoldl_timer_stays_clear (events : List RpcEvent) :
    ∀ s : RpcState, s.timerPending = false →
      (events.foldl rpcStep s).timerPending = false := by
  induction events with
  | nil => intro s h; simpa using h
  | cons e rest ih =>
    intro s h
    have hstep : (rpcStep s e).timerPending = false := by
      cases e with
      | timerFires => simp [rpcStep, h]
      | callback le r => simp [rpcStep]
    simpa [List.foldl_cons] using ih (rpcStep s e) hstep

/-- C5: every `rpc` call arms the 5000 ms timer; if the timer fires
before any callback the promise rejects with the timeout error and that
outcome is final whatever arrives later (no hang, settles once); if the
callback arrives first, the promise settles with its outcome — error on
`lastError`, resolution otherwise — and that is final too; and after any
event the timer is no longer pending (cleared by the callback or
consumed by firing), so no timer is leaked on any resolution path. -/
theorem rpc_timeout_settles_once_no_leak :
    rpcTimeoutMs = 5000 ∧
    rpcInit.timerPending = true ∧
    (∀ rest : List RpcEvent,
      (rpcRun (.timerFires :: rest)).settled = some .rejectedTimeout) ∧
    (∀ (le : Option String) (r : String) (rest : List RpcEvent),
      (rpcRun (.callback le r :: rest)).settled =
        some (match le with
          | some m => .rejectedLastError m
          | none => .resolved r)) ∧
    (∀ events : List RpcEvent, events ≠ [] →
      (rpcRun events).timerPending = false) := by
  refine ⟨rfl, rfl, ?_, ?_, ?_⟩
  · intro rest
    have h1 : (rpcStep rpcInit .timerFires).settled = some .rejectedTimeout := rfl
    simpa [rpcRun, List.foldl_cons] using
      rpcFoldl_settled_mono rest (rpcStep rpcInit .timerFires) _ h1
  · intro le r rest
    have h1 : (rpcStep rpcInit (.callback le r)).settled =
        some (match le with
          | some m => .rejectedLastError m
          | none => .resolved r) := by
      cases le <;> rfl
    simpa [rpcRun, List.foldl_cons] using
      rpcFoldl_settled_mono rest (rpcStep rpcInit (.callback le r)) _ h1
  · intro events h
    match events with
    | e :: rest =>
      have h1 : (rpcStep rpcInit e).timerPending = false := by
        cases e with
        | timerFires => rfl
        | callback le r => rfl
      simpa [rpcRun, List.foldl_cons] using
        rpcFoldl_timer_stays_clear rest (rpcStep rpcInit e) h1

/-- C5 witness: a timer firing with no response, followed by a late
callback, leaves the promise rejected with the timeout outcome and the
timer consumed. -/
theorem rpc_timeout_settles_once_no_leak_witness :
    (rpcRun [.timerFires, .callback none "late"]).settled = some .rejectedTimeout ∧
    ([RpcEvent.timerFires, .callback none "late"] ≠ ([] : List RpcEvent)) ∧
    (rpcRun [.timerFires, .callback none "late"]).timerPending = false := by
  refine ⟨rpc_timeout_settles_once_no_leak.2.2.1 [.callback none "late"], by decide,
    rpc_timeout_settles_once_no_leak.2.2.2.2 [.timerFires, .callback none "late"] (by decide)⟩

/-- Lemma: when every endpoint of a prefix fails (rejects, non-ok
status, or structurally invalid body), the schema loop skips that
prefix, reaching the remaining endpoints with some updated `lastErr`
and the cache as it was. -/
theorem schemaLoopSkip (env : String → SchemaFetch) (cached : Option Schema)
    (pre rest : List String) :
    ∀ lastErr : Option String, (∀ p ∈ pre, fetchValid (env p) = false) →
      ∃ lastErr2, schemaLoop env cached (pre ++ rest) lastErr =
        schemaLoop env cached rest lastErr2 := by
  induction pre with
  | nil => intro le _; exact ⟨le, rfl⟩
  | cons ep pre2 ih =>
    intro le hall
    have hep : fetchValid (env ep) = false := hall ep (by simp)
    have hpre2 : ∀ p ∈ pre2, fetchValid (env p) = false := by
      intro p hp; exact hall p (by simp [hp])
    cases henv : env ep with
    | okJson d =>
      have hd : schemaDataValid d = false := by simpa [fetchValid, henv] using hep
      have := ih le hpre2
      simpa [schemaLoop, henv, hd] using this
    | httpError status =>
      have := ih (some ("HTTP " ++ toString status)) hpre2
      simpa [schemaLoop, henv] using this
    | thrown e =>
      have := ih (some e) hpre2
      simpa [schemaLoop, henv] using this

/-- C8: `fetchSchema` tries the candidate endpoints in order — the
user-configured endpoint first when set, then the fixed defaults — and
(1) returns the schema of the first endpoint whose response is ok and
contains at least one of the recognized category collections, caching
it; (2) when every endpoint fails but a cached schema exists it returns
the cached schema, not an error; (3) only when every endpoint fails and
no cache exists does it return an explicit error — it never fabricates
an empty schema. -/
theorem tryFetchSchema_order_cache_error :
    (∀ (env : String → SchemaFetch) (se : String) (cached : Option Schema)
        (pre : List String) (ep : String) (post : List String) (d : SchemaData),
      schemaEndpoints se = pre ++ ep :: post →
      (∀ p ∈ pre, fetchValid (env p) = false) →
      env ep = .okJson d → schemaDataValid d = true →
      tryFetchSchema env se cached = (.ok (schemaOf d) ep, some (schemaOf d))) ∧
    (∀ (env : String → SchemaFetch) (se : String) (c : Schema),
      (∀ p ∈ schemaEndpoints se, fetchValid (env p) = false) →
      tryFetchSchema env se (some c) = (.ok c "(cached)", some c)) ∧
    (∀ (env : String → SchemaFetch) (se : String),
      (∀ p ∈ schemaEndpoints se, fetchValid (env p) = false) →
      ∃ msg, tryFetchSchema env se none = (.error msg, none)) := by
  refine ⟨?_, ?_, ?_⟩
  · intro env se cached pre ep post d hsplit hpre henv hd
    unfold tryFetchSchema
    rw [hsplit]
    obtain ⟨le2, hskip⟩ :=
      schemaLoopSkip env cached pre (ep :: post) none hpre
    rw [hskip]
    simp [schemaLoop, henv, hd]
  · intro env se c hall
    obtain ⟨le2, h⟩ := schemaLoopSkip env (some c) (schemaEndpoints se) [] none hall
    rw [List.append_nil] at h
    unfold tryFetchSchema
    rw [h]
    rfl
  · intro env se hall
    obtain ⟨le2, h⟩ := schemaLoopSkip env none (schemaEndpoints se) [] none hall
    rw [List.append_nil] at h
    exact ⟨le2.getD noSchemaMsg, by unfold tryFetchSchema; rw [h]; rfl⟩

/-- C8 witness: with no custom endpoint, `/tag/schema` failing and
`/schema` valid, the `/schema` response is returned and cached; with
every endpoint down, the cached schema is returned when present and an
explicit error when not. -/
theorem tryFetchSchema_order_cache_error_witness :
    (schemaEndpoints "" = ["/tag/schema"] ++ "/schema" :: ["/tags/schema", "/sync/schema"] ∧
      (∀ p ∈ ["/tag/schema"], fetchValid (envSchemaOk p) = false) ∧
      envSchemaOk "/schema" = .okJson ⟨some ["人物"], some ["光影"], none, none⟩ ∧
      schemaDataValid ⟨some ["人物"], some ["光影"], none, none⟩ = true ∧
      tryFetchSchema envSchemaOk "" none =
        (.ok (schemaOf ⟨some ["人物"], some ["光影"], none, none⟩) "/schema",
          some (schemaOf ⟨some ["人物"], some ["光影"], none, none⟩))) ∧
    ((∀ p ∈ schemaEndpoints "", fetchValid (envSchemaDown p) = false) ∧
      tryFetchSchema envSchemaDown "" (some ⟨["h"], ["t"]⟩) =
        (.ok ⟨["h"], ["t"]⟩ "(cached)", some ⟨["h"], ["t"]⟩)) ∧
    (∃ msg, tryFetchSchema envSchemaDown "" none = (.error msg, none)) := by
  refine ⟨⟨by decide, by decide, by decide, by decide,
      tryFetchSchema_order_cache_error.1 envSchemaOk "" none ["/tag/schema"] "/schema"
        ["/tags/schema", "/sync/schema"] ⟨some ["人物"], some ["光影"], none, none⟩
        (by decide) (by decide) (by decide) (by decide)⟩,
    ⟨by decide, tryFetchSchema_order_cache_error.2.1 envSchemaDown "" ⟨["h"], ["t"]⟩ (by decide)⟩,
    tryFetchSchema_order_cache_error.2.2 envSchemaDown "" (by decide)⟩

/-- C3: the code contradicts the claim on both branches.  When the
primitive is available and ERRORS — the CAPTURE response reports
failure, or the snapshot image fails to load — `captureWithNativeAPI`
throws, `capture`'s catch returns `{success := false}` without falling
through to the DOM synthesis, and `captureScreenshot` surfaces the
failure tip to the user instead of producing an image (first three
conjuncts).  And when the primitive is UNAVAILABLE, the DOM-synthesis
path itself crashes on the undeclared variable `ctx` before drawing the
placeholder, so `capture` again returns `{success := false}` and the
failure tip is shown (last two conjuncts) — the placeholder is never
synthesized in any of the claimed circumstances. -/
theorem capture_error_surfaces_failure :
    capture true (.respFailure (some "captureVisibleTab 失败")) ⟨0, 0, 100, 100⟩ 1000 500
      = ⟨false, none, some "captureVisibleTab 失败"⟩ ∧
    captureScreenshot true (.respFailure (some "captureVisibleTab 失败"))
        ⟨0, 0, 100, 100⟩ 1000 500
      = .errorTip "captureVisibleTab 失败" ∧
    captureScreenshot true .imageLoadError ⟨0, 0, 100, 100⟩ 1000 500
      = .errorTip "截图图像加载失败" ∧
    capture false (.respFailure none) ⟨0, 0, 100, 100⟩ 1000 500
      = ⟨false, none, some "ctx is not defined"⟩ ∧
    captureScreenshot false (.respFailure none) ⟨0, 0, 100, 100⟩ 1000 500
      = .errorTip "ctx is not defined" := by
  refine ⟨rfl, rfl, rfl, rfl, rfl⟩

/-- C4 counterexample: in an 800 × 600 viewport, starting the selection
at (10, 0) and moving the pointer (inside the viewport) to (5, 100)
makes the square side 100 and flips the square to the left of the start
point, so its x coordinate is −90 — the produced rect is square but NOT
contained in the viewport. -/
theorem selectionRect_not_contained_counterexample :
    ((0:ℚ) ≤ 10 ∧ (10:ℚ) ≤ 800 ∧ (0:ℚ) ≤ 0 ∧ (0:ℚ) ≤ 600) ∧
    ((0:ℚ) ≤ 5 ∧ (5:ℚ) ≤ 800 ∧ (0:ℚ) ≤ 100 ∧ (100:ℚ) ≤ 600) ∧
    (selectionRect ⟨10, 0⟩ ⟨5, 100⟩).w = (selectionRect ⟨10, 0⟩ ⟨5, 100⟩).h ∧
    (selectionRect ⟨10, 0⟩ ⟨5, 100⟩).x = -90 ∧
    ¬ (selectionRect ⟨10, 0⟩ ⟨5, 100⟩).inBounds 800 600 := by
  have h : selectionRect ⟨10, 0⟩ ⟨5, 100⟩ = ⟨-90, 0, 100, 100⟩ := by
    norm_num [selectionRect, abs_of_nonpos, abs_of_nonneg, max_def, min_def]
  refine ⟨by norm_num, by norm_num, rfl, ?_, ?_⟩
  · rw [h]
  · rw [h]
    norm_num [Rect.inBounds]

/-- C4 amended: for every pointer pair the candidate rect is always a
square whose side is `max(|dx|, |dy|)`, anchored at the start point
(the start point is a corner of the rect, which extends toward the
current pointer) — but it is not always contained in the viewport,
since no clamping to the surface bounds is applied. -/
theorem selectionRect_square_anchored (startPt cur : Point) :
    (selectionRect startPt cur).w = (selectionRect startPt cur).h ∧
    (selectionRect startPt cur).w = max |cur.x - startPt.x| |cur.y - startPt.y| ∧
    ((selectionRect startPt cur).x = startPt.x ∨
      (selectionRect startPt cur).x + (selectionRect startPt cur).w = startPt.x) ∧
    ((selectionRect startPt cur).y = startPt.y ∨
      (selectionRect startPt cur).y + (selectionRect startPt cur).h = startPt.y) := by
  have hsize : (0:ℚ) ≤ max |cur.x - startPt.x| |cur.y - startPt.y| :=
    le_trans (abs_nonneg _) (le_max_left _ _)
  refine ⟨rfl, rfl, ?_, ?_⟩
  · by_cases hc : startPt.x ≤ cur.x
    · left
      simp only [selectionRect, if_pos hc, one_mul]
      exact min_eq_left (by linarith)
    · right
      simp only [selectionRect, if_neg hc]
      rw [min_eq_right (by linarith)]
      ring
  · by_cases hc : startPt.y ≤ cur.y
    · left
      simp only [selectionRect, if_pos hc, one_mul]
      exact min_eq_left (by linarith)
    · right
      simp only [selectionRect, if_neg hc]
      rw [min_eq_right (by linarith)]
      ring

/-- Lemma: rounding an integer-valued rational returns that integer. -/
theorem jsRound_intCast (z : ℤ) : jsRound (z : ℚ) = z := by
  unfold jsRound
  rw [Int.floor_int_add]
  have h : ⌊(1:ℚ) / 2⌋ = 0 := by
    rw [Int.floor_eq_zero_iff]
    constructor <;> norm_num
  omega

/-- Lemma: `jsRound` of a rational that equals an integer is that
integer. -/
theorem jsRound_eq_int (q : ℚ) (z : ℤ) (h : q = z) : jsRound q = z := by
  rw [h]; exact jsRound_intCast z

/-- C6 counterexample: for the region rect `(0, 0, 100, 100)` with a
2000 × 1000 snapshot of a 1000 × 500 viewport (scale 2 per axis), the
output canvas of `captureWithNativeAPI` is 200 × 200 = `sw × sh`, not
the `rect.w × rect.h = 100 × 100` the claim states. -/
theorem nativeCrop_output_size_counterexample :
    nativeCanvasSize (nativeCropOf ⟨0, 0, 100, 100⟩ 2000 1000 1000 500) = (200, 200) ∧
    nativeCanvasSize (nativeCropOf ⟨0, 0, 100, 100⟩ 2000 1000 1000 500) ≠ (100, 100) := by
  have h : nativeCropOf ⟨0, 0, 100, 100⟩ 2000 1000 1000 500 = ⟨0, 0, 200, 200⟩ := by
    simp only [nativeCropOf, NativeCrop.mk.injEq]
    exact ⟨jsRound_eq_int _ 0 (by norm_num), jsRound_eq_int _ 0 (by norm_num),
      jsRound_eq_int _ 200 (by norm_num), jsRound_eq_int _ 200 (by norm_num)⟩
  rw [h]
  exact ⟨rfl, by decide⟩

/-- C6 amended: the crop uses per-axis scale factors
`snapshotNaturalSize / viewportSize`, the corrected source rectangle is
`(sx, sy, sw, sh) = round(rect.{x, y, w, h} × scale)`, and the cropped
pixels are composited into an output image of dimensions `sw × sh` (the
scaled crop size) — which equals `rect.w × rect.h` exactly when the
snapshot natural size equals the viewport size (scale 1). -/
theorem nativeCrop_scaled_output (rect : Rect) (nw nh iw ih : ℚ) :
    nativeCropOf rect nw nh iw ih =
      ⟨jsRound (rect.x * (nw / iw)), jsRound (rect.y * (nh / ih)),
        jsRound (rect.w * (nw / iw)), jsRound (rect.h * (nh / ih))⟩ ∧
    nativeCanvasSize (nativeCropOf rect nw nh iw ih) =
      ((nativeCropOf rect nw nh iw ih).sw, (nativeCropOf rect nw nh iw ih).sh) ∧
    (∀ wz hz : ℤ, nw = iw → nh = ih → iw ≠ 0 → ih ≠ 0 →
      rect.w = wz → rect.h = hz →
      nativeCanvasSize (nativeCropOf rect nw nh iw ih) = (wz, hz)) := by
  refine ⟨rfl, rfl, ?_⟩
  intro wz hz hw hh hiw hih hrw hrh
  have hsw : (nativeCropOf rect nw nh iw ih).sw = wz := by
    apply jsRound_eq_int
    rw [hw, div_self hiw, mul_one, hrw]
  have hsh : (nativeCropOf rect nw nh iw ih).sh = hz := by
    apply jsRound_eq_int
    rw [hh, div_self hih, mul_one, hrh]
  show ((nativeCropOf rect nw nh iw ih).sw, (nativeCropOf rect nw nh iw ih).sh) = (wz, hz)
  rw [hsw, hsh]

/-- C6 witness: at scale 1 (snapshot 1000 × 500 of a 1000 × 500
viewport) the output canvas of a 50 × 60 region is 50 × 60. -/
theorem nativeCrop_scaled_output_witness :
    ((1000:ℚ) = 1000 ∧ (500:ℚ) = 500 ∧ (1000:ℚ) ≠ 0 ∧ (500:ℚ) ≠ 0 ∧
      (⟨3, 4, 50, 60⟩ : Rect).w = ((50:ℤ) : ℚ) ∧ (⟨3, 4, 50, 60⟩ : Rect).h = ((60:ℤ) : ℚ)) ∧
    nativeCanvasSize (nativeCropOf ⟨3, 4, 50, 60⟩ 1000 500 1000 500) = (50, 60) :=
  ⟨⟨rfl, rfl, by norm_num, by norm_num, by norm_num, by norm_num⟩,
    (nativeCrop_scaled_output ⟨3, 4, 50, 60⟩ 1000 500 1000 500).2.2 50 60 rfl rfl
      (by norm_num) (by norm_num) (by norm_num) (by norm_num)⟩

/-- Lemma: one resize step keeps the crop rectangle inside the
container. -/
theorem handleResize_inBounds (c : CropState) (h : Handle) (dx dy : ℚ)
    (hb : c.inBounds) : (handleResize c h dx dy).inBounds := by
  obtain ⟨hx, hy, hxw, hyh⟩ := hb
  unfold handleResize
  split_ifs with hg
  · refine ⟨?_, ?_, ?_, ?_⟩
    · show (0:ℚ) ≤ resizeNewX c h dx
      unfold resizeNewX
      split_ifs
      · exact le_max_left 0 _
      · exact hx
    · show (0:ℚ) ≤ resizeNewY c h dy
      unfold resizeNewY
      split_ifs
      · exact le_max_left 0 _
      · exact hy
    · show resizeNewX c h dx + resizeNewWidth c h dx ≤ c.containerWidth
      unfold resizeNewWidth resizeNewX
      split_ifs with h1 h2
      · linarith
      · have hmin := min_le_left (c.containerWidth - c.cropX) (c.cropWidth + dx)
        linarith
      · linarith
    · show resizeNewY c h dy + resizeNewHeight c h dy ≤ c.containerHeight
      unfold resizeNewHeight resizeNewY
      split_ifs with h1 h2
      · linarith
      · have hmin := min_le_left (c.containerHeight - c.cropY) (c.cropHeight + dy)
        linarith
      · linarith
  · exact ⟨hx, hy, hxw, hyh⟩

/-- Lemma: one resize step keeps both sides at or above the 20 px
floor. -/
theorem handleResize_atFloor (c : CropState) (h : Handle) (dx dy : ℚ)
    (hf : c.atFloor) : (handleResize c h dx dy).atFloor := by
  unfold handleResize
  split_ifs with hg
  · exact ⟨hg.1, hg.2⟩
  · exact hf

/-- Lemma: one drag step keeps the crop rectangle inside the
container. -/
theorem handleDrag_inBounds (c : CropState) (nx ny : ℚ) (hb : c.inBounds) :
    (handleDrag c nx ny).inBounds := by
  obtain ⟨hx, hy, hxw, hyh⟩ := hb
  refine ⟨le_max_left 0 _, le_max_left 0 _, ?_, ?_⟩
  · show max 0 (min nx (c.containerWidth - c.cropWidth)) + c.cropWidth ≤ c.containerWidth
    have h1 : max 0 (min nx (c.containerWidth - c.cropWidth)) ≤
        c.containerWidth - c.cropWidth :=
      max_le (by linarith) (min_le_right _ _)
    linarith
  · show max 0 (min ny (c.containerHeight - c.cropHeight)) + c.cropHeight ≤ c.containerHeight
    have h1 : max 0 (min ny (c.containerHeight - c.cropHeight)) ≤
        c.containerHeight - c.cropHeight :=
      max_le (by linarith) (min_le_right _ _)
    linarith

/-- Lemma: one drag step does not change the crop sides, so the floor is
kept. -/
theorem handleDrag_atFloor (c : CropState) (nx ny : ℚ) (hf : c.atFloor) :
    (handleDrag c nx ny).atFloor := hf

/-- C7: along every sequence of CropEditor resize (and drag) steps
starting from a crop rectangle inside the container with both sides at
or above the 20 px floor, the crop rectangle stays inside the container
bounds (`0 ≤ x`, `x + w ≤ containerWidth`, same for `y`/`h`) and its
width and height never drop below the 20 px resize floor, regardless of
the magnitude or sign of the pointer deltas. -/
theorem cropRect_bounds_floor_invariant (c : CropState) (steps : List CropStep)
    (hb : c.inBounds) (hf : c.atFloor) :
    (applyCropSteps c steps).inBounds ∧ (applyCropSteps c steps).atFloor := by
  induction steps generalizing c with
  | nil => exact ⟨hb, hf⟩
  | cons s rest ih =>
    cases s with
    | resize h dx dy =>
      simpa [applyCropSteps, List.foldl_cons, applyCropStep] using
        ih (handleResize c h dx dy) (handleResize_inBounds c h dx dy hb)
          (handleResize_atFloor c h dx dy hf)
    | drag nx ny =>
      simpa [applyCropSteps, List.foldl_cons, applyCropStep] using
        ih (handleDrag c nx ny) (handleDrag_inBounds c nx ny hb)
          (handleDrag_atFloor c nx ny hf)

/-- C7 witness: a 50 × 50 crop at (10, 10) in a 200 × 150 container,
pushed through an extreme south-east resize, an out-of-range drag, and
an extreme west resize, stays in bounds and at the floor. -/
theorem cropRect_bounds_floor_invariant_witness :
    (⟨10, 10, 50, 50, 200, 150⟩ : CropState).inBounds ∧
    (⟨10, 10, 50, 50, 200, 150⟩ : CropState).atFloor ∧
    ((applyCropSteps ⟨10, 10, 50, 50, 200, 150⟩
        [.resize .se 1000 1000, .drag (-50) 400, .resize .w (-1000) 0]).inBounds ∧
      (applyCropSteps ⟨10, 10, 50, 50, 200, 150⟩
        [.resize .se 1000 1000, .drag (-50) 400, .resize .w (-1000) 0]).atFloor) := by
  have hb : (⟨10, 10, 50, 50, 200, 150⟩ : CropState).inBounds := by
    norm_num [CropState.inBounds]
  have hf : (⟨10, 10, 50, 50, 200, 150⟩ : CropState).atFloor := by
    norm_num [CropState.atFloor]
  exact ⟨hb, hf, cropRect_bounds_floor_invariant _ _ hb hf⟩

/-- C10: a resize step whose newly computed width or height falls below
20 px is rejected atomically: the whole state — in particular all four
fields of the crop rectangle — is left exactly as it was; the rectangle
is never clamped to the floor or partially updated. -/
theorem handleResize_rejects_atomically (c : CropState) (handle : Handle) (dx dy : ℚ)
    (h : resizeNewWidth c handle dx < 20 ∨ resizeNewHeight c handle dy < 20) :
    handleResize c handle dx dy = c := by
  have hng : ¬ (20 ≤ resizeNewWidth c handle dx ∧ 20 ≤ resizeNewHeight c handle dy) := by
    rcases h with h | h
    · exact fun hc => absurd hc.1 (not_le.mpr h)
    · exact fun hc => absurd hc.2 (not_le.mpr h)
  unfold handleResize
  rw [if_neg hng]

/-- C10 witness: shrinking a 30 × 30 crop by 15 px from the east handle
would make the width 15 < 20, so the step leaves the state exactly
unchanged. -/
theorem handleResize_rejects_atomically_witness :
    (resizeNewWidth ⟨0, 0, 30, 30, 100, 100⟩ .e (-15) < 20 ∨
      resizeNewHeight ⟨0, 0, 30, 30, 100, 100⟩ .e 0 < 20) ∧
    handleResize ⟨0, 0, 30, 30, 100, 100⟩ .e (-15) 0 = ⟨0, 0, 30, 30, 100, 100⟩ := by
  have h : resizeNewWidth (⟨0, 0, 30, 30, 100, 100⟩ : CropState) .e (-15) < 20 := by
    norm_num [resizeNewWidth, resizeNewX, Handle.hasW, Handle.hasE, min_def]
  exact ⟨Or.inl h, handleResize_rejects_atomically _ _ _ 0 (Or.inl h)⟩

end MJTag
